import Mathlib

/-!
Verification of the holdings-normalization step of scripts/cbonds_fetch.py
(function main, lines 80 - 137).

Embedding conventions:
* JSON values (the elements of the embedded `structure` array) are the
  inductive type JVal.  Python numbers (int and float) are modelled as exact
  rationals; IEEE special values (inf, nan) and binary representation effects
  are outside the model.
* A raw record (one element of the array, a Python dict) is an association
  list of key/value pairs in insertion order, with unique keys.
* Fallible Python expressions are modelled with Except String; an uncaught
  exception such as AttributeError is an Except.error value that aborts the
  whole normalization, exactly as an uncaught exception aborts the loop.
* Rational arithmetic is written with mkRat and integer arithmetic on
  numerators and denominators, which the kernel evaluates; the lemma
  ratMul_eq relates this to ordinary multiplication on ℚ.
-/

inductive JVal where
  | null : JVal
  | bool : Bool → JVal
  | num : ℚ → JVal
  | str : String → JVal
  | arr : List JVal → JVal
  | obj : List (String × JVal) → JVal

/-- A raw holding record: a Python dict from field name to JSON value. -/
def Record := List (String × JVal)

/-- First value stored under a key, absent as Option.none.  Python dict keys
are unique, so first-match lookup agrees with dict lookup. -/
def lookupRec : List (String × JVal) → String → Option JVal
  | [], _ => none
  | (k, v) :: rest, key => if k = key then some v else lookupRec rest key

/-- Python item.get(key, default): the stored value when the key is present
(even when that value is None), the default otherwise. -/
def getD (item : Record) (key : String) (d : JVal) : JVal :=
  match lookupRec item key with
  | some v => v
  | none => d

/-- Python truthiness of a JSON-derived value. -/
def truthy : JVal → Bool
  | JVal.null => false
  | JVal.bool b => b
  | JVal.num q => decide (q ≠ 0)
  | JVal.str s => decide (s ≠ "")
  | JVal.arr l => !l.isEmpty
  | JVal.obj l => !l.isEmpty

/-- Python `a or b`: a when a is truthy, else b. -/
def pyOr (a b : JVal) : JVal := if truthy a then a else b

/-- Python `x is None` for a JSON-derived value. -/
def isNone : JVal → Bool
  | JVal.null => true
  | _ => false

/-- Python isinstance(x, str) for a JSON-derived value. -/
def isStr : JVal → Bool
  | JVal.str _ => true
  | _ => false

/-- Characters removed by the Python str.strip() default (the further form
feed, vertical tab and unicode spaces do not occur in this data). -/
def trimChars (cs : List Char) : List Char :=
  ((cs.dropWhile Char.isWhitespace).reverse.dropWhile Char.isWhitespace).reverse

/-- Surrounding-whitespace trim of a string, by character list. -/
def pyTrim (s : String) : String := String.mk (trimChars s.data)

/-- Python x.strip(): trims surrounding whitespace of a string and raises
AttributeError on any non-string value. -/
def pyStrip : JVal → Except String String
  | JVal.str s => Except.ok (pyTrim s)
  | _ => Except.error "AttributeError"

/-- Numeric value of a list of decimal digit characters. -/
def digitsVal (cs : List Char) : Nat :=
  cs.foldl (fun a c => a * 10 + (c.toNat - 48)) 0

/-- Scale a parsed mantissa by a decimal exponent. -/
def applyExp (base : ℚ) (neg : Bool) (e : Nat) : ℚ :=
  if neg then mkRat base.num (base.den * 10 ^ e)
  else mkRat (base.num * 10 ^ e) base.den

/-- Parse the digits of an exponent part. -/
def expDigits (base : ℚ) (neg : Bool) (cs : List Char) : Option ℚ :=
  if cs ≠ [] ∧ cs.all Char.isDigit then some (applyExp base neg (digitsVal cs))
  else none

/-- Parse an optional exponent suffix (e or E, optional sign, digits). -/
def parseExpPart (base : ℚ) : List Char → Option ℚ
  | [] => some base
  | c :: rest =>
    if c = 'e' ∨ c = 'E' then
      match rest with
      | '+' :: t => expDigits base false t
      | '-' :: t => expDigits base true t
      | t => expDigits base false t
    else none

/-- Parse an unsigned decimal literal: digits with an optional fractional
part and an optional exponent. -/
def parseUnsigned (cs : List Char) : Option ℚ :=
  let ip := cs.takeWhile Char.isDigit
  let rest := cs.dropWhile Char.isDigit
  match rest with
  | '.' :: rest2 =>
    let fp := rest2.takeWhile Char.isDigit
    let rest3 := rest2.dropWhile Char.isDigit
    if ip.isEmpty && fp.isEmpty then none
    else
      parseExpPart (mkRat (digitsVal ip * 10 ^ fp.length + digitsVal fp) (10 ^ fp.length))
        rest3
  | _ => if ip.isEmpty then none else parseExpPart (mkRat (digitsVal ip) 1) rest

/-- Python float(s) on a string: surrounding whitespace is ignored, then an
optional sign and a decimal literal.  The inf and nan spellings and digit
underscores are outside the rational model and treated as not convertible. -/
def pyFloatOfString (s : String) : Option ℚ :=
  match trimChars s.data with
  | '+' :: rest => parseUnsigned rest
  | '-' :: rest => Option.map Neg.neg (parseUnsigned rest)
  | cs => parseUnsigned cs

/-- Python float(x) on a JSON-derived value, with conversion failure
(ValueError or TypeError) as Option.none.  Numbers convert to themselves,
booleans to 0 or 1, strings parse as decimal literals, and None, arrays and
objects raise TypeError. -/
def pyFloat : JVal → Option ℚ
  | JVal.num q => some q
  | JVal.bool b => some (if b then 1 else 0)
  | JVal.str s => pyFloatOfString s
  | _ => none

/-- Round a rational to the nearest integer, ties to even, as Python round
does on exact values.  The fractional part is compared with one half by
cross multiplication on the numerator and denominator. -/
def roundHalfEven (q : ℚ) : ℤ :=
  let f := Int.fdiv q.num q.den
  let twice := 2 * (q.num - f * (q.den : ℤ))
  if twice < (q.den : ℤ) then f
  else if (q.den : ℤ) < twice then f + 1
  else if f % 2 = 0 then f else f + 1

/-- Python round(x, 2). -/
def pyround2 (x : ℚ) : ℚ := mkRat (roundHalfEven (mkRat (x.num * 100) x.den)) 100

/-- Multiplication on ℚ in kernel-evaluable form; ratMul_eq below identifies
it with ordinary multiplication. -/
def ratMul (a b : ℚ) : ℚ := mkRat (a.num * b.num) (a.den * b.den)

/-- Canonical output unit: the dict built at lines 118 - 122.  The optional
isin and ticker keys are present exactly when the extracted string is
non-empty. -/
structure Entry where
  name : String
  weight : ℚ
  isin : Option String
  ticker : Option String
deriving DecidableEq, Repr

/-- The normalized report: holdings, totalCount and availableFields of the
result dict (lines 131 - 136).  cbondsId is upstream I/O, outside the
normalizer. -/
structure Report where
  holdings : List Entry
  totalCount : Nat
  availableFields : List String
deriving DecidableEq, Repr

/-- Line 82: name = item.get("asset_name", "").strip() -/
def extractName (item : Record) : Except String String :=
  pyStrip (getD item "asset_name" (JVal.str ""))

/-- The value the isinstance guard at line 93 tests:
item.get("isin", item.get("asset_isin", item.get("emitent_isin"))), that is
the value of the first present candidate key, None when none is present. -/
def isinTestVal (item : Record) : JVal :=
  getD item "isin" (getD item "asset_isin" (getD item "emitent_isin" JVal.null))

/-- The value selected at lines 88 - 92:
item.get("isin", "") or item.get("asset_isin", "") or
item.get("emitent_isin", "") or "". -/
def isinOrChain (item : Record) : JVal :=
  pyOr (getD item "isin" (JVal.str ""))
    (pyOr (getD item "asset_isin" (JVal.str ""))
      (pyOr (getD item "emitent_isin" (JVal.str "")) (JVal.str "")))

/-- Lines 88 - 93: isin_val is the stripped or-chain value when the guard
value is a string (strip raises when the or-chain value is not a string),
and "" otherwise. -/
def extractIsin (item : Record) : Except String String :=
  if isStr (isinTestVal item) then pyStrip (isinOrChain item) else Except.ok ""

/-- The value the isinstance guard at line 100 tests:
item.get("ticker", item.get("asset_ticker")). -/
def tickerTestVal (item : Record) : JVal :=
  getD item "ticker" (getD item "asset_ticker" JVal.null)

/-- The value selected at lines 96 - 99:
item.get("ticker", "") or item.get("asset_ticker", "") or "". -/
def tickerOrChain (item : Record) : JVal :=
  pyOr (getD item "ticker" (JVal.str ""))
    (pyOr (getD item "asset_ticker" (JVal.str "")) (JVal.str ""))

/-- Lines 96 - 100, same shape as extractIsin. -/
def extractTicker (item : Record) : Except String String :=
  if isStr (tickerTestVal item) then pyStrip (tickerOrChain item) else Except.ok ""

/-- Lines 105 - 116.  weight_num and weight_rounded are item.get values, so
an absent key and a stored null both read as None.  When weight_num is not
None its conversion is attempted, a failure giving 0.0 without consulting
weight_rounded; only when weight_num is None is weight_rounded consulted,
its value used directly with no rounding; when both are None the weight is
0.0.  Only the caught ValueError and TypeError can arise here, so this step
is total. -/
def extractWeight (item : Record) : ℚ :=
  let weight_num := getD item "weight.numeric" JVal.null
  let weight_rounded := getD item "weight.rounded" JVal.null
  if isNone weight_num then
    if isNone weight_rounded then 0
    else
      match pyFloat weight_rounded with
      | some q => q
      | none => 0
  else
    match pyFloat weight_num with
    | some q => pyround2 (ratMul q 100)
    | none => 0

/-- One iteration of the loop at lines 81 - 123, in Python evaluation
order: name, the isin and ticker values (both can raise AttributeError even
when the record is later skipped, since the continue test is at line 102),
then the empty-name skip, then the entry. -/
def processRecord (item : Record) : Except String (Option Entry) :=
  match extractName item with
  | Except.error e => Except.error e
  | Except.ok name =>
    match extractIsin item with
    | Except.error e => Except.error e
    | Except.ok isin_val =>
      match extractTicker item with
      | Except.error e => Except.error e
      | Except.ok ticker_val =>
        if name = "" then Except.ok none
        else
          Except.ok (some (Entry.mk name (extractWeight item)
            (if isin_val = "" then none else some isin_val)
            (if ticker_val = "" then none else some ticker_val)))

/-- The full loop: entries in input order, the first uncaught exception
aborting the whole batch. -/
def normalizeEntries : List Record → Except String (List Entry)
  | [] => Except.ok []
  | r :: rs =>
    match processRecord r with
    | Except.error e => Except.error e
    | Except.ok oe =>
      match normalizeEntries rs with
      | Except.error e => Except.error e
      | Except.ok rest =>
        match oe with
        | some entry => Except.ok (entry :: rest)
        | none => Except.ok rest

/-- The sort key order of line 126: descending weight. -/
def wge (a b : Entry) : Prop := b.weight ≤ a.weight

instance : DecidableRel wge := fun a b => inferInstanceAs (Decidable (b.weight ≤ a.weight))

instance : IsTotal Entry wge := ⟨fun a b => le_total b.weight a.weight⟩

instance : IsTrans Entry wge := ⟨fun _ _ _ h1 h2 => le_trans h2 h1⟩

/-- Line 129: the key list of the first record, empty for empty input. -/
def availableFieldsOf : List Record → List String
  | [] => []
  | r :: _ => r.map Prod.fst

/-- Lines 80 - 136: build the entries, sort by weight descending
(list.sort with a key and reverse=True is a stable descending sort, which
insertionSort with the weight-descending relation computes), and assemble
the report. -/
def normalizeHoldings (rs : List Record) : Except String Report :=
  match normalizeEntries rs with
  | Except.error e => Except.error e
  | Except.ok entries =>
    Except.ok (Report.mk (List.insertionSort wge entries)
      (List.insertionSort wge entries).length (availableFieldsOf rs))

/-- Selection rule exactly as the spec words it for claim C2: the first
candidate field, in priority order, whose value is a string that is
non-empty after trimming; none when no candidate qualifies.  Stated from
the spec only, to compare against the code definitions above. -/
def specFirstNonEmptyString (item : Record) : List String → Option String
  | [] => none
  | k :: ks =>
    match lookupRec item k with
    | some (JVal.str s) =>
      if pyTrim s = "" then specFirstNonEmptyString item ks else some (pyTrim s)
    | _ => specFirstNonEmptyString item ks

/-! Concrete inputs and outputs used by the witness and counterexample
theorems below. -/

def c4rs : List Record :=
  [[("asset_name", JVal.str "B"), ("weight.rounded", JVal.num (mkRat 5 1))],
   [("asset_name", JVal.str "A"), ("weight.numeric", JVal.num (mkRat 71234 1000000))],
   [("asset_name", JVal.str "C"), ("weight.rounded", JVal.num (mkRat 5 1))]]

def c4es : List Entry :=
  [Entry.mk "B" (mkRat 5 1) none none,
   Entry.mk "A" (mkRat 712 100) none none,
   Entry.mk "C" (mkRat 5 1) none none]

def c4rep : Report :=
  Report.mk
    [Entry.mk "A" (mkRat 712 100) none none,
     Entry.mk "B" (mkRat 5 1) none none,
     Entry.mk "C" (mkRat 5 1) none none] 3 ["asset_name", "weight.rounded"]

def c5item : Record :=
  [("asset_name", JVal.str "Apple"), ("weight.numeric", JVal.num (mkRat 45573 1000000))]

def c5entry : Entry := Entry.mk "Apple" (mkRat 456 100) none none

def c3item : Record :=
  [("asset_name", JVal.str "x"), ("weight.numeric", JVal.str "abc"),
   ("weight.rounded", JVal.num (mkRat 5 1))]

def c3roundedOnly : Record :=
  [("asset_name", JVal.str "y"), ("weight.rounded", JVal.num (mkRat 7 2))]

def c10item : Record :=
  [("weight.numeric", JVal.null), ("weight.rounded", JVal.num (mkRat 3 1))]

def c2item : Record :=
  [("asset_name", JVal.str "x"), ("isin", JVal.num 142857),
   ("asset_isin", JVal.str "US0378331005")]

def c6item : Record :=
  [("asset_name", JVal.str ""), ("isin", JVal.str ""), ("asset_isin", JVal.num 7)]

def c7input : List Record :=
  [[("asset_name", JVal.str "Apple Inc"), ("weight.numeric", JVal.num (mkRat 71234 1000000))],
   [("asset_name", JVal.str ""), ("weight.numeric", JVal.num (mkRat 5 100))],
   [("asset_name", JVal.str "Microsoft"), ("weight.rounded", JVal.num (mkRat 5 1))]]

def c8rs : List Record := [[("asset_name", JVal.str "Z")]]

def c9r : Record := [("alpha", JVal.num 1)]

/-! Theorems. -/

theorem ratMul_eq (a b : ℚ) : ratMul a b = a * b := by
  rw [ratMul, Rat.mkRat_eq_div]
  push_cast
  rw [← div_mul_div_comm, Rat.num_div_den, Rat.num_div_den]

example : extractName [("asset_name", JVal.str " x ")] = Except.ok "x" := rfl

example : pyFloat (JVal.str "abc") = none := rfl

example : pyFloat (JVal.str " 4.5e1 ") = some (mkRat 45 1) := by decide

example : pyround2 (ratMul (mkRat 45573 1000000) 100) = mkRat 456 100 := by decide

example : pyround2 (ratMul (mkRat 71234 1000000) 100) = mkRat 712 100 := by decide

example :
    normalizeHoldings [[("asset_name", JVal.str "A"),
      ("weight.numeric", JVal.num (mkRat 45573 1000000))]] =
    Except.ok (Report.mk [Entry.mk "A" (mkRat 456 100) none none] 1
      ["asset_name", "weight.numeric"]) := rfl

/-! Helper lemmas. -/

theorem filter_insertionSort_weight (w : ℚ) (l : List Entry) :
    (List.insertionSort wge l).filter (fun e => decide (e.weight = w)) =
      l.filter (fun e => decide (e.weight = w)) := by
  have hsub : List.Sublist (l.filter (fun e => decide (e.weight = w)))
      (List.insertionSort wge l) := by
    apply List.sublist_insertionSort
    · apply List.pairwise_of_forall_mem_list
      intro a ha b hb
      have ha3 : a.weight = w := of_decide_eq_true (List.mem_filter.mp ha).2
      have hb3 : b.weight = w := of_decide_eq_true (List.mem_filter.mp hb).2
      show b.weight ≤ a.weight
      rw [ha3, hb3]
    · exact List.filter_sublist l
  have hself : (l.filter (fun e => decide (e.weight = w))).filter
      (fun e => decide (e.weight = w)) = l.filter (fun e => decide (e.weight = w)) :=
    List.filter_eq_self.mpr fun a ha => (List.mem_filter.mp ha).2
  have hsub2 := hsub.filter (fun e => decide (e.weight = w))
  rw [hself] at hsub2
  have hperm : List.Perm ((List.insertionSort wge l).filter (fun e => decide (e.weight = w)))
      (l.filter (fun e => decide (e.weight = w))) :=
    (List.perm_insertionSort wge l).filter _
  exact (hsub2.eq_of_length hperm.length_eq.symm).symm

theorem processRecord_ok_some (item : Record) (e : Entry)
    (h : processRecord item = Except.ok (some e)) : e.weight = extractWeight item := by
  unfold processRecord at h
  split at h
  · exact absurd h (by simp)
  · split at h
    · exact absurd h (by simp)
    · split at h
      · exact absurd h (by simp)
      · split at h
        · exact absurd h (by simp)
        · simp only [Except.ok.injEq, Option.some.injEq] at h
          rw [← h]

/-! Claim C4. -/

/-- C4: whenever normalization succeeds, any earlier entry of the holdings
list has weight at least that of any later entry, and for each weight value
the equal-weight entries appear in the same relative order as the entries
built from the input records (stable descending sort). -/
theorem c4_sorted_stable (rs : List Record) (es : List Entry) (rep : Report) (w : ℚ)
    (h1 : normalizeEntries rs = Except.ok es)
    (h2 : normalizeHoldings rs = Except.ok rep) :
    rep.holdings.Pairwise (fun a b => b.weight ≤ a.weight) ∧
      rep.holdings.filter (fun e => decide (e.weight = w)) =
        es.filter (fun e => decide (e.weight = w)) := by
  have hrep : rep.holdings = List.insertionSort wge es := by
    unfold normalizeHoldings at h2
    rw [h1] at h2
    simp only [Except.ok.injEq] at h2
    rw [← h2]
  constructor
  · rw [hrep]
    exact List.sorted_insertionSort wge es
  · rw [hrep]
    exact filter_insertionSort_weight w es

theorem c4_sorted_stable_witness :
    normalizeEntries c4rs = Except.ok c4es ∧
    normalizeHoldings c4rs = Except.ok c4rep ∧
    (c4rep.holdings.Pairwise (fun a b => b.weight ≤ a.weight) ∧
      c4rep.holdings.filter (fun e => decide (e.weight = mkRat 5 1)) =
        c4es.filter (fun e => decide (e.weight = mkRat 5 1))) :=
  ⟨rfl, rfl, c4_sorted_stable c4rs c4es c4rep (mkRat 5 1) rfl rfl⟩

/-! Claim C5. -/

/-- C5: a record whose weight.numeric field is present, non-null and
convertible to a number q, and that produces an output entry, has output
weight round(q times 100, 2). -/
theorem c5_fractional_weight (item : Record) (q : ℚ) (e : Entry)
    (hnn : isNone (getD item "weight.numeric" JVal.null) = false)
    (hq : pyFloat (getD item "weight.numeric" JVal.null) = some q)
    (he : processRecord item = Except.ok (some e)) :
    e.weight = pyround2 (q * 100) := by
  rw [processRecord_ok_some item e he]
  simp [extractWeight, hnn, hq, ratMul_eq]

theorem c5_fractional_weight_witness :
    isNone (getD c5item "weight.numeric" JVal.null) = false ∧
    pyFloat (getD c5item "weight.numeric" JVal.null) = some (mkRat 45573 1000000) ∧
    processRecord c5item = Except.ok (some c5entry) ∧
    c5entry.weight = pyround2 (mkRat 45573 1000000 * 100) ∧
    c5entry.weight = mkRat 456 100 :=
  ⟨rfl, rfl, rfl, c5_fractional_weight c5item (mkRat 45573 1000000) c5entry rfl rfl rfl, rfl⟩

/-! Claim C3. -/

/-- C3 counterexample: a record whose weight.numeric is present but not
convertible and whose weight.rounded is present and convertible to 5 gets
output weight 0, not the pre-rounded value 5, so weight.rounded is not
consulted when weight.numeric is present but malformed. -/
theorem c3_rounded_not_consulted :
    isNone (getD c3item "weight.numeric" JVal.null) = false ∧
    pyFloat (getD c3item "weight.numeric" JVal.null) = none ∧
    isNone (getD c3item "weight.rounded" JVal.null) = false ∧
    pyFloat (getD c3item "weight.rounded" JVal.null) = some (mkRat 5 1) ∧
    processRecord c3item = Except.ok (some (Entry.mk "x" 0 none none)) ∧
    (0 : ℚ) ≠ mkRat 5 1 :=
  ⟨rfl, rfl, rfl, rfl, rfl, by decide⟩

/-- C3 (amended): weight.rounded is consulted only when weight.numeric is
missing or null; in that case a present, non-null and convertible
weight.rounded is used directly with no rounding.  When weight.numeric is
present and non-null but not convertible the weight is 0.0 without
consulting weight.rounded, and when weight.numeric is missing or null and
weight.rounded yields no number the weight is 0.0. -/
theorem c3_weight_fallback (item : Record) :
    (∀ q : ℚ, isNone (getD item "weight.numeric" JVal.null) = true →
      isNone (getD item "weight.rounded" JVal.null) = false →
      pyFloat (getD item "weight.rounded" JVal.null) = some q →
      extractWeight item = q) ∧
    (isNone (getD item "weight.numeric" JVal.null) = false →
      pyFloat (getD item "weight.numeric" JVal.null) = none →
      extractWeight item = 0) ∧
    (isNone (getD item "weight.numeric" JVal.null) = true →
      pyFloat (getD item "weight.rounded" JVal.null) = none →
      extractWeight item = 0) := by
  refine ⟨?_, ?_, ?_⟩
  · intro q h1 h2 h3
    simp [extractWeight, h1, h2, h3]
  · intro h1 h2
    simp [extractWeight, h1, h2]
  · intro h1 h2
    cases h3 : isNone (getD item "weight.rounded" JVal.null) with
    | true => simp [extractWeight, h1, h3]
    | false => simp [extractWeight, h1, h2, h3]

theorem c3_weight_fallback_witness :
    isNone (getD c3roundedOnly "weight.numeric" JVal.null) = true ∧
    isNone (getD c3roundedOnly "weight.rounded" JVal.null) = false ∧
    pyFloat (getD c3roundedOnly "weight.rounded" JVal.null) = some (mkRat 7 2) ∧
    extractWeight c3roundedOnly = mkRat 7 2 :=
  ⟨rfl, rfl, rfl, (c3_weight_fallback c3roundedOnly).1 (mkRat 7 2) rfl rfl rfl⟩

/-! Claim C10. -/

/-- C10: a record whose weight.numeric key is present with a null value is
treated as if the field were absent: weight.rounded is consulted, its
convertible value used directly, and the weight defaults to 0 when
weight.rounded is also null, absent or not convertible. -/
theorem c10_null_numeric (item : Record)
    (hp : lookupRec item "weight.numeric" = some JVal.null) :
    (∀ q : ℚ, isNone (getD item "weight.rounded" JVal.null) = false →
      pyFloat (getD item "weight.rounded" JVal.null) = some q →
      extractWeight item = q) ∧
    (pyFloat (getD item "weight.rounded" JVal.null) = none →
      extractWeight item = 0) := by
  have hn : getD item "weight.numeric" JVal.null = JVal.null := by
    unfold getD
    rw [hp]
  have hnn : isNone (getD item "weight.numeric" JVal.null) = true := by
    rw [hn]
    rfl
  constructor
  · intro q h1 h2
    simp [extractWeight, hnn, h1, h2]
  · intro h1
    cases h3 : isNone (getD item "weight.rounded" JVal.null) with
    | true => simp [extractWeight, hnn, h3]
    | false => simp [extractWeight, hnn, h1, h3]

theorem c10_null_numeric_witness :
    lookupRec c10item "weight.numeric" = some JVal.null ∧
    isNone (getD c10item "weight.rounded" JVal.null) = false ∧
    pyFloat (getD c10item "weight.rounded" JVal.null) = some (mkRat 3 1) ∧
    extractWeight c10item = mkRat 3 1 :=
  ⟨rfl, rfl, rfl, (c10_null_numeric c10item rfl).1 (mkRat 3 1) rfl rfl⟩

/-! Claim C1. -/

/-- C1: normalization does not survive arbitrary field types.  A record
whose asset_name value is the number 5 makes line 82 call strip on an int,
an uncaught AttributeError that aborts the whole batch instead of degrading
gracefully. -/
theorem c1_nonstring_name_aborts :
    normalizeHoldings [[("asset_name", JVal.num 5)]] =
      Except.error "AttributeError" := rfl

/-! Claim C2. -/

/-- C2: the spec-described rule picks asset_isin, the first candidate whose
value is a non-empty string after trimming, but the code omits isin for this
record: the isinstance guard at line 93 tests the first present candidate
(the number stored under isin), not the first string candidate. -/
theorem c2_isin_guard_mismatch :
    specFirstNonEmptyString c2item ["isin", "asset_isin", "emitent_isin"] =
      some "US0378331005" ∧
    normalizeHoldings [c2item] =
      Except.ok (Report.mk [Entry.mk "x" 0 none none] 1
        ["asset_name", "isin", "asset_isin"]) :=
  ⟨rfl, rfl⟩

/-! Claim C6. -/

/-- C6: a record with an empty name is not always excluded silently.  This
record has the empty name, yet the isin extraction at lines 88 - 93 strips
the number stored under asset_isin (selected by the or-chain because the
guard only saw the empty string under isin), so the batch aborts with
AttributeError before the continue at line 102 is reached. -/
theorem c6_empty_name_not_silent :
    extractName c6item = Except.ok "" ∧
    normalizeHoldings [c6item] = Except.error "AttributeError" :=
  ⟨rfl, rfl⟩

/-! Claim C7. -/

/-- C7: the end-to-end scenario of the spec: the empty-name record is
dropped, Apple gets weight 7.12, Microsoft keeps 5.0, the list is sorted
descending and totalCount is 2. -/
theorem c7_end_to_end :
    normalizeHoldings c7input =
      Except.ok (Report.mk
        [Entry.mk "Apple Inc" (mkRat 712 100) none none,
         Entry.mk "Microsoft" (mkRat 5 1) none none] 2
        ["asset_name", "weight.numeric"]) := rfl

/-! Claim C8. -/

/-- C8: normalization is a pure function of the input sequence: equal raw
sequences give equal reports (same holdings, order, totalCount and
availableFields) and equal entry lists; no state is carried between
invocations in the embedding, as none is in the loop of lines 80 - 137. -/
theorem c8_deterministic (rs1 rs2 : List Record) (h : rs1 = rs2) :
    normalizeHoldings rs1 = normalizeHoldings rs2 ∧
      normalizeEntries rs1 = normalizeEntries rs2 := by
  subst h
  exact ⟨rfl, rfl⟩

theorem c8_deterministic_witness :
    normalizeHoldings c8rs = normalizeHoldings c8rs ∧
      normalizeEntries c8rs = normalizeEntries c8rs :=
  c8_deterministic c8rs c8rs rfl

/-! Claim C9. -/

/-- C9: the empty input gives the empty report with totalCount 0 and no
availableFields, and for non-empty input availableFields is the key list of
the first raw record only. -/
theorem c9_empty_and_first_fields :
    normalizeHoldings [] = Except.ok (Report.mk [] 0 []) ∧
    ∀ (r : Record) (rs : List Record) (rep : Report),
      normalizeHoldings (r :: rs) = Except.ok rep →
      rep.availableFields = r.map Prod.fst := by
  constructor
  · rfl
  · intro r rs rep h
    unfold normalizeHoldings at h
    cases he : normalizeEntries (r :: rs) with
    | error s =>
      rw [he] at h
      cases h
    | ok es =>
      rw [he] at h
      simp only [Except.ok.injEq] at h
      rw [← h]
      rfl

theorem c9_empty_and_first_fields_witness :
    normalizeHoldings [] = Except.ok (Report.mk [] 0 []) ∧
    (Report.mk [] 0 ["alpha"]).availableFields = c9r.map Prod.fst :=
  ⟨c9_empty_and_first_fields.1,
    c9_empty_and_first_fields.2 c9r [] (Report.mk [] 0 ["alpha"]) rfl⟩
